import Mathlib

set_option maxHeartbeats 1000000

/-!
Shallow embedding of cargo's `src/cargo/util/network.rs`: the spurious-error
classifier `maybe_spurious`, the retry state `Retry` with its attempt
operation (`Retry::try` in the source), and the driver `with_retry`.

Errors produced by the wrapped operation are `anyhow::Error` values: a root
error of some concrete type, possibly wrapped in context layers added by
callers.  The classifier inspects such a value with `downcast_ref`, which
looks through the context layers to the underlying root, and `root_cause`
renders the innermost cause in the warning message.
-/

/-- Error classes of the libgit2 bindings (`git2::ErrorClass`). -/
inductive git2.ErrorClass where
  | None | NoMemory | Os | Invalid | Reference | Zlib | Repository | Config
  | Regex | Odb | Index | Object | Net | Tag | Tree | Indexer | Ssl | Submodule
  | Thread | Stash | Checkout | FetchHead | Merge | Ssh | Filter | Revert
  | Callback | CherryPick | Describe | Rebase | Filesystem | Patch | Worktree
  | Sha1 | Http | Internal
  deriving DecidableEq

/-- Error codes of the libgit2 bindings (`git2::ErrorCode`). -/
inductive git2.ErrorCode where
  | GenericError | NotFound | Exists | Ambiguous | BufSize | User | BareRepo
  | UnbornBranch | Unmerged | NotFastForward | InvalidSpec | Conflict | Locked
  | Modified | Auth | Certificate | Applied | Peel | Eof | Invalid | Uncommitted
  | Directory | MergeConflict | HashsumMismatch | IndexDirty | ApplyFail | Owner
  deriving DecidableEq

/-- A libgit2 error value (`git2::Error`): its class (the `cls` field embeds
the `class()` accessor; `class` is reserved in Lean), code and message. -/
structure git2.Error where
  cls : git2.ErrorClass
  code : git2.ErrorCode
  message : String
  deriving DecidableEq

/-- A libcurl error value (`curl::Error`), carrying the raw `CURLcode`. -/
structure curl.Error where
  code : Nat
  deriving DecidableEq

def curl_sys.CURLE_COULDNT_RESOLVE_PROXY : Nat := 5

def curl_sys.CURLE_COULDNT_RESOLVE_HOST : Nat := 6

def curl_sys.CURLE_COULDNT_CONNECT : Nat := 7

def curl_sys.CURLE_HTTP2 : Nat := 16

def curl_sys.CURLE_PARTIAL_FILE : Nat := 18

def curl_sys.CURLE_OPERATION_TIMEDOUT : Nat := 28

def curl_sys.CURLE_SSL_CONNECT_ERROR : Nat := 35

def curl_sys.CURLE_SEND_ERROR : Nat := 55

def curl_sys.CURLE_RECV_ERROR : Nat := 56

def curl_sys.CURLE_HTTP2_STREAM : Nat := 92

def curl.Error.is_couldnt_connect (e : curl.Error) : Bool :=
  e.code == curl_sys.CURLE_COULDNT_CONNECT

def curl.Error.is_couldnt_resolve_proxy (e : curl.Error) : Bool :=
  e.code == curl_sys.CURLE_COULDNT_RESOLVE_PROXY

def curl.Error.is_couldnt_resolve_host (e : curl.Error) : Bool :=
  e.code == curl_sys.CURLE_COULDNT_RESOLVE_HOST

def curl.Error.is_operation_timedout (e : curl.Error) : Bool :=
  e.code == curl_sys.CURLE_OPERATION_TIMEDOUT

def curl.Error.is_recv_error (e : curl.Error) : Bool :=
  e.code == curl_sys.CURLE_RECV_ERROR

def curl.Error.is_send_error (e : curl.Error) : Bool :=
  e.code == curl_sys.CURLE_SEND_ERROR

def curl.Error.is_http2_error (e : curl.Error) : Bool :=
  e.code == curl_sys.CURLE_HTTP2

def curl.Error.is_http2_stream_error (e : curl.Error) : Bool :=
  e.code == curl_sys.CURLE_HTTP2_STREAM

def curl.Error.is_ssl_connect_error (e : curl.Error) : Bool :=
  e.code == curl_sys.CURLE_SSL_CONNECT_ERROR

def curl.Error.is_partial_file (e : curl.Error) : Bool :=
  e.code == curl_sys.CURLE_PARTIAL_FILE

/-- cargo's non-2xx HTTP response error (`HttpNotSuccessful`, defined in
`util/errors.rs`; its fields are the ones the tests in `network.rs`
construct: status `code`, `url`, response `body`). -/
structure HttpNotSuccessful where
  code : Nat
  url : String
  body : List Nat
  deriving DecidableEq

/-- Modelled from the spec: `crate::sources::git::fetch::Error` is not under
`src/`; per the spec it is a dedicated error kind of the fetch subsystem that
self-reports whether it is spurious via its own predicate, to which the
classifier defers verbatim. -/
structure fetch.Error where
  spurious : Bool
  deriving DecidableEq

def fetch.Error.is_spurious (e : fetch.Error) : Bool := e.spurious

/-- The concrete root-error types the classifier distinguishes via
`downcast_ref`, plus `other` for any error of an unrecognized type (for
example a plain string error). -/
inductive ErrorKind where
  | git2Err (e : git2.Error)
  | curlErr (e : curl.Error)
  | httpNotSuccessful (e : HttpNotSuccessful)
  | fetchErr (e : fetch.Error)
  | other (msg : String)
  deriving DecidableEq

/-- An `anyhow::Error`: a root error (`base`), possibly wrapped in any number
of context layers added with `Error::context`. -/
inductive Error where
  | base (k : ErrorKind)
  | context (msg : String) (inner : Error)
  deriving DecidableEq

/-- `anyhow::Error::downcast_ref::<git2::Error>()`: looks through context
layers down to the root error and returns it when it has the requested
type. -/
def Error.downcast_git2 : Error → Option git2.Error
  | .base (.git2Err e) => some e
  | .base _ => none
  | .context _ inner => inner.downcast_git2

/-- `anyhow::Error::downcast_ref::<curl::Error>()`. -/
def Error.downcast_curl : Error → Option curl.Error
  | .base (.curlErr e) => some e
  | .base _ => none
  | .context _ inner => inner.downcast_curl

/-- `anyhow::Error::downcast_ref::<HttpNotSuccessful>()`. -/
def Error.downcast_http : Error → Option HttpNotSuccessful
  | .base (.httpNotSuccessful e) => some e
  | .base _ => none
  | .context _ inner => inner.downcast_http

/-- `anyhow::Error::downcast_ref::<crate::sources::git::fetch::Error>()`. -/
def Error.downcast_fetch : Error → Option fetch.Error
  | .base (.fetchErr e) => some e
  | .base _ => none
  | .context _ inner => inner.downcast_fetch

/-- `anyhow::Error::root_cause()`: the innermost cause of the chain. -/
def Error.root_cause : Error → ErrorKind
  | .base k => k
  | .context _ inner => inner.root_cause

/-- Modelled from the spec: the human-readable description of a root cause,
as rendered by each error type's display implementation (those
implementations live outside `src/`); the retry warning interpolates it. -/
def ErrorKind.describe : ErrorKind → String
  | .git2Err e => e.message
  | .curlErr e => "curl error code " ++ toString e.code
  | .httpNotSuccessful e =>
      "failed to get successful HTTP response from " ++ e.url ++ " (" ++
        toString e.code ++ ")"
  | .fetchErr _ => "spurious git fetch error"
  | .other msg => msg

/-- The tail of `maybe_spurious` in `network.rs`, reached when the `git2`
match falls through: the curl predicate check, the 5xx-status check on
`HttpNotSuccessful`, the fetch error's own spuriousness predicate, and the
final `false` for everything else. -/
def maybe_spurious_after_git (err : Error) : Bool :=
  (match err.downcast_curl with
   | some curl_err =>
     curl_err.is_couldnt_connect
       || curl_err.is_couldnt_resolve_proxy
       || curl_err.is_couldnt_resolve_host
       || curl_err.is_operation_timedout
       || curl_err.is_recv_error
       || curl_err.is_send_error
       || curl_err.is_http2_error
       || curl_err.is_http2_stream_error
       || curl_err.is_ssl_connect_error
       || curl_err.is_partial_file
   | none => false)
  || (match err.downcast_http with
      | some not_200 => decide (500 ≤ not_200.code ∧ not_200.code < 600)
      | none => false)
  || (match err.downcast_fetch with
      | some e => e.is_spurious
      | none => false)

/-- `maybe_spurious` from `network.rs`: a git transport error of class
Net/Os/Zlib/Http returns immediately with `code != Certificate`; any other
case falls through to the curl, HTTP-status and fetch checks. -/
def maybe_spurious (err : Error) : Bool :=
  match err.downcast_git2 with
  | some git_err =>
    match git_err.cls with
    | .Net | .Os | .Zlib | .Http => git_err.code != git2.ErrorCode.Certificate
    | _ => maybe_spurious_after_git err
  | none => maybe_spurious_after_git err

/-- Modelled from the spec: the warning sink (cargo's `Shell`, outside this
slice).  `warn` is fallible; each call consumes the next scripted response
(`none`: the line is written; `some e`: the sink fails with `e` and writes
nothing), and an exhausted script means every further call succeeds.
`emitted` records the lines written so far, in order. -/
structure Shell where
  responses : List (Option Error)
  emitted : List String
  deriving DecidableEq

def Shell.warn (sh : Shell) (msg : String) : Shell × Option Error :=
  match sh.responses with
  | [] => ({ sh with emitted := sh.emitted ++ [msg] }, none)
  | none :: rest => ({ responses := rest, emitted := sh.emitted ++ [msg] }, none)
  | some e :: rest => ({ responses := rest, emitted := sh.emitted }, some e)

/-- Modelled from the spec: the `[net]` section of cargo's configuration;
`retry` is the optional `net.retry` count. -/
structure NetConfig where
  retry : Option Nat

/-- Modelled from the spec: the configuration object; reading the `[net]`
section is fallible, and the configuration owns the warning shell. -/
structure Config where
  net_config : Except Error NetConfig
  shell : Shell

/-- The retry state: the remaining-attempts budget. -/
structure Retry where
  remaining : Nat
  deriving DecidableEq

/-- `Retry::new`: budget from `net.retry`, defaulting to 2; fails before any
attempt if the configuration cannot be read. -/
def Retry.new (config : Config) : Except Error Retry :=
  match config.net_config with
  | .error e => .error e
  | .ok nc => .ok { remaining := nc.retry.getD 2 }

/-- `Retry::try` (`r#try` in the source; `try` is reserved in Lean): run the
operation once.  A spurious failure with budget left warns (fallibly: a warn
failure is returned and nothing is decremented), then decrements the budget
and yields `ok none` (meaning retry); any other outcome is final.  The
operation is a state-passing function `step` so that a stateful `FnMut`
callback is representable; the mutated shell and retry state are returned. -/
def Retry.attempt {S T : Type} (r : Retry) (shell : Shell)
    (step : S → Except Error T × S) (s : S) :
    Except Error (Option T) × Retry × Shell × S :=
  match step s with
  | (.error e, s') =>
    if maybe_spurious e && decide (0 < r.remaining) then
      match shell.warn ("spurious network error (" ++ toString r.remaining ++
          " tries remaining): " ++ (Error.root_cause e).describe) with
      | (shell', some werr) => (.error werr, r, shell', s')
      | (shell', none) => (.ok none, { remaining := r.remaining - 1 }, shell', s')
    else (.error e, r, shell, s')
  | (.ok v, s') => (.ok (some v), r, shell, s')

/-- The loop of `with_retry`: keep attempting until an attempt is final.
Returns the final outcome, the final shell, the final callback state and the
number of invocations of the operation.  Termination: a retry only happens
when the attempt decremented a positive budget. -/
def with_retry_loop {S T : Type} (step : S → Except Error T × S)
    (shell : Shell) (s : S) (r : Retry) :
    Except Error T × Shell × S × Nat :=
  match h : Retry.attempt r shell step s with
  | (.ok (some v), _, shell', s') => (.ok v, shell', s', 1)
  | (.error e, _, shell', s') => (.error e, shell', s', 1)
  | (.ok none, r', shell', s') =>
    let rest := with_retry_loop step shell' s' r'
    (rest.1, rest.2.1, rest.2.2.1, rest.2.2.2 + 1)
termination_by r.remaining
decreasing_by
  simp only [Retry.attempt] at h
  split at h
  · split at h
    · rename_i hc
      split at h
      · simp at h
      · simp only [Prod.mk.injEq] at h
        simp only [Bool.and_eq_true, decide_eq_true_eq] at hc
        have hr : r'.remaining = r.remaining - 1 := by rw [← h.2.1]
        omega
    · simp at h
  · simp at h

/-- `with_retry`: construct the `Retry` from configuration (propagating a
configuration-read failure before any attempt) and run the loop with the
configuration's shell. -/
def with_retry {S T : Type} (config : Config) (step : S → Except Error T × S)
    (s : S) : Except Error T × Shell × S × Nat :=
  match Retry.new config with
  | .error e => (.error e, config.shell, s, 0)
  | .ok r => with_retry_loop step config.shell s r

/-- Wrap an error in a list of context layers, outermost first. -/
def wrapContexts : List String → Error → Error
  | [], e => e
  | m :: ms, e => .context m (wrapContexts ms e)

/-- A 502 response, as the tests in `network.rs` build one. -/
def http502 : HttpNotSuccessful := { code := 502, url := "Uri", body := [] }

/-- A 501 response, as the tests in `network.rs` build one. -/
def http501 : HttpNotSuccessful := { code := 501, url := "Uri", body := [] }

/-- A 404 response. -/
def http404 : HttpNotSuccessful := { code := 404, url := "Uri", body := [] }

def e502 : Error := .base (.httpNotSuccessful http502)

def e501 : Error := .base (.httpNotSuccessful http501)

def e404 : Error := .base (.httpNotSuccessful http404)

/-- A git transport error of retryable class Http whose code is the
certificate error. -/
def gCertHttp : git2.Error :=
  { cls := .Http, code := .Certificate, message := "the SSL certificate is invalid" }

def eCertHttp : Error := .base (.git2Err gCertHttp)

/-- A plain unclassified error. -/
def eOtherPlain : Error := .base (.other "some plain string error")

/-- An error standing for a failed write to the warning sink. -/
def werrBroken : Error := .base (.other "failed to write to shell")

/-- A healthy shell: every warn call succeeds. -/
def shellOk : Shell := { responses := [], emitted := [] }

/-- A broken shell: the next warn call fails with `werrBroken`. -/
def shellBroken : Shell := { responses := [some werrBroken], emitted := [] }

/-- An operation that always fails with `e`, over trivial callback state. -/
def stepErr (e : Error) : Unit → Except Error Unit × Unit :=
  fun u => (.error e, u)

/-- An attempt sequence that always fails with the 404 outcome. -/
def fFatal : Nat → Except Error Unit := fun _ => .error e404

/-! Theorems.  Helper lemmas first, then one theorem per claim (with a
witness where the theorem carries hypotheses). -/

/-- A context layer is transparent to the classifier: `downcast_ref` and
hence the whole verdict look through it. -/
theorem maybe_spurious_context (m : String) (e : Error) :
    maybe_spurious (.context m e) = maybe_spurious e := rfl

/-- Any number of context layers is transparent to the classifier. -/
theorem maybe_spurious_wrapContexts (ms : List String) (e : Error) :
    maybe_spurious (wrapContexts ms e) = maybe_spurious e := by
  induction ms with
  | nil => rfl
  | cons m ms ih => rw [wrapContexts, maybe_spurious_context, ih]

/-- C1: a version-control transport error of class Net, Os, Zlib or Http is
classified retryable exactly when its code is not the certificate code; in
particular a certificate error is never retryable even in those classes. -/
theorem git_transport_retryable_unless_certificate (err : Error)
    (g : git2.Error) (hd : err.downcast_git2 = some g)
    (hc : g.cls = .Net ∨ g.cls = .Os ∨ g.cls = .Zlib ∨ g.cls = .Http) :
    maybe_spurious err = (g.code != git2.ErrorCode.Certificate) := by
  rcases hc with h | h | h | h <;> simp [maybe_spurious, hd, h]

theorem git_transport_certificate_witness :
    Error.downcast_git2 eCertHttp = some gCertHttp ∧
      maybe_spurious eCertHttp = (gCertHttp.code != git2.ErrorCode.Certificate) :=
  ⟨rfl, git_transport_retryable_unless_certificate eCertHttp gCertHttp rfl
    (Or.inr (Or.inr (Or.inr rfl)))⟩

/-- C2: a retryable root cause stays classified retryable under two or more
layers of added context: the classifier walks the whole cause chain, so a
match at the innermost node suffices. -/
theorem nested_context_preserves_spurious (ms : List String) (k : ErrorKind)
    (hlen : 2 ≤ ms.length) (hk : maybe_spurious (.base k) = true) :
    maybe_spurious (wrapContexts ms (.base k)) = true := by
  rw [maybe_spurious_wrapContexts, hk]

theorem nested_context_witness :
    2 ≤ (["A non-spurious wrapping err", "A second chained error"] : List String).length ∧
      maybe_spurious (.base (.httpNotSuccessful http502)) = true ∧
      maybe_spurious (wrapContexts
        ["A non-spurious wrapping err", "A second chained error"]
        (.base (.httpNotSuccessful http502))) = true :=
  ⟨by decide, rfl,
    nested_context_preserves_spurious
      ["A non-spurious wrapping err", "A second chained error"]
      (.httpNotSuccessful http502) (by decide) rfl⟩

/-- C3: a non-success HTTP outcome is classified retryable exactly when its
status lies in 500..599; in particular 502 is retryable and 404 is not. -/
theorem http_outcome_spurious_iff_server_error :
    (∀ h : HttpNotSuccessful,
        maybe_spurious (.base (.httpNotSuccessful h)) =
          decide (500 ≤ h.code ∧ h.code < 600)) ∧
      maybe_spurious e502 = true ∧ maybe_spurious e404 = false := by
  refine ⟨fun h => ?_, rfl, rfl⟩
  simp [maybe_spurious, maybe_spurious_after_git, Error.downcast_git2,
    Error.downcast_curl, Error.downcast_http, Error.downcast_fetch]

/-- A successful attempt: the value is returned, nothing else changes. -/
theorem attempt_ok {S T : Type} (r : Retry) (shell : Shell)
    (step : S → Except Error T × S) (s s' : S) (v : T)
    (h : step s = (.ok v, s')) :
    Retry.attempt r shell step s = (.ok (some v), r, shell, s') := by
  unfold Retry.attempt
  rw [h]

/-- A failed attempt that is fatal (not spurious, or budget exhausted) is
returned as-is: no warning, no decrement. -/
theorem attempt_fatal {S T : Type} (r : Retry) (shell : Shell)
    (step : S → Except Error T × S) (s s' : S) (e : Error)
    (h : step s = (.error e, s'))
    (hf : maybe_spurious e = false ∨ r.remaining = 0) :
    Retry.attempt r shell step s = (.error e, r, shell, s') := by
  unfold Retry.attempt
  rw [h]
  have hc : (maybe_spurious e && decide (0 < r.remaining)) = false := by
    rcases hf with hf | hf <;> simp [hf]
  simp [hc]

/-- A spurious failure with budget left warns; the outcome is decided by the
shell's answer to that one warn call. -/
theorem attempt_spurious {S T : Type} (r : Retry) (shell : Shell)
    (step : S → Except Error T × S) (s s' : S) (e : Error)
    (h : step s = (.error e, s'))
    (hs : maybe_spurious e = true) (hr : 0 < r.remaining) :
    Retry.attempt r shell step s =
      match shell.warn ("spurious network error (" ++ toString r.remaining ++
          " tries remaining): " ++ (Error.root_cause e).describe) with
      | (shell', some werr) => (.error werr, r, shell', s')
      | (shell', none) =>
          (.ok none, { remaining := r.remaining - 1 }, shell', s') := by
  unfold Retry.attempt
  rw [h]
  simp [hs, hr]

/-- A retry verdict from one attempt decrements the budget by exactly one. -/
theorem attempt_retry_remaining {S T : Type} (r r' : Retry) (shell sh' : Shell)
    (step : S → Except Error T × S) (s s' : S)
    (h : Retry.attempt r shell step s = (.ok none, r', sh', s')) :
    r.remaining = r'.remaining + 1 := by
  simp only [Retry.attempt] at h
  split at h
  · split at h
    · rename_i hc
      split at h
      · simp at h
      · simp only [Prod.mk.injEq] at h
        simp only [Bool.and_eq_true, decide_eq_true_eq] at hc
        have hr : r'.remaining = r.remaining - 1 := by rw [← h.2.1]
        omega
    · simp at h
  · simp at h

/-- Unfolding the loop when the attempt succeeds. -/
theorem loop_step_ok {S T : Type} (r r' : Retry) (shell sh' : Shell)
    (step : S → Except Error T × S) (s s' : S) (v : T)
    (h : Retry.attempt r shell step s = (.ok (some v), r', sh', s')) :
    with_retry_loop step shell s r = (.ok v, sh', s', 1) := by
  unfold with_retry_loop
  split <;> rename_i heq <;> rw [h] at heq <;> simp_all

/-- Unfolding the loop when the attempt is final with an error. -/
theorem loop_step_err {S T : Type} (r r' : Retry) (shell sh' : Shell)
    (step : S → Except Error T × S) (s s' : S) (e : Error)
    (h : Retry.attempt r shell step s = (.error e, r', sh', s')) :
    with_retry_loop step shell s r = (.error e, sh', s', 1) := by
  unfold with_retry_loop
  split <;> rename_i heq <;> rw [h] at heq <;> simp_all

/-- Unfolding the loop when the attempt asks for a retry. -/
theorem loop_step_retry {S T : Type} (r r' : Retry) (shell sh' : Shell)
    (step : S → Except Error T × S) (s s' : S)
    (h : Retry.attempt r shell step s = (.ok none, r', sh', s')) :
    with_retry_loop step shell s r =
      ((with_retry_loop step sh' s' r').1,
        (with_retry_loop step sh' s' r').2.1,
        (with_retry_loop step sh' s' r').2.2.1,
        (with_retry_loop step sh' s' r').2.2.2 + 1) := by
  conv_lhs => rw [with_retry_loop]
  split <;> rename_i heq <;> rw [h] at heq <;> simp_all

/-- Fuel-indexed bound: the loop makes at most `remaining + 1` invocations. -/
theorem loop_count_bound_aux {S T : Type} (step : S → Except Error T × S) :
    ∀ (fuel : Nat) (r : Retry), r.remaining ≤ fuel → ∀ (shell : Shell) (s : S),
      (with_retry_loop step shell s r).2.2.2 ≤ r.remaining + 1 := by
  intro fuel
  induction fuel with
  | zero =>
    intro r hr shell s
    rcases hA : Retry.attempt r shell step s with ⟨out, r', sh', s'⟩
    rcases out with e | o
    · rw [loop_step_err r r' shell sh' step s s' e hA]
      show 1 ≤ r.remaining + 1
      omega
    · rcases o with _ | v
      · have := attempt_retry_remaining r r' shell sh' step s s' hA
        omega
      · rw [loop_step_ok r r' shell sh' step s s' v hA]
        show 1 ≤ r.remaining + 1
        omega
  | succ n ih =>
    intro r hr shell s
    rcases hA : Retry.attempt r shell step s with ⟨out, r', sh', s'⟩
    rcases out with e | o
    · rw [loop_step_err r r' shell sh' step s s' e hA]
      show 1 ≤ r.remaining + 1
      omega
    · rcases o with _ | v
      · have hdec := attempt_retry_remaining r r' shell sh' step s s' hA
        rw [loop_step_retry r r' shell sh' step s s' hA]
        have hrec := ih r' (by omega) sh' s'
        show (with_retry_loop step sh' s' r').2.2.2 + 1 ≤ r.remaining + 1
        omega
      · rw [loop_step_ok r r' shell sh' step s s' v hA]
        show 1 ≤ r.remaining + 1
        omega

/-- C4: for every initial budget and every operation, the retry loop invokes
the operation at most `remaining + 1` times and terminates (it is a total
function returning a success value or an error). -/
theorem with_retry_invocation_bound {S T : Type} (step : S → Except Error T × S)
    (shell : Shell) (s : S) (r : Retry) :
    (with_retry_loop step shell s r).2.2.2 ≤ r.remaining + 1 ∧
      ∀ (config : Config) (rr : Retry), Retry.new config = .ok rr →
        (with_retry config step s).2.2.2 ≤ rr.remaining + 1 := by
  refine ⟨loop_count_bound_aux step r.remaining r (Nat.le_refl _) shell s, ?_⟩
  intro config rr hnew
  unfold with_retry
  rw [hnew]
  exact loop_count_bound_aux step rr.remaining rr (Nat.le_refl _) config.shell s

/-- C5: across one attempt the budget never increases; a retry verdict
decrements it by exactly one (so it was positive and cannot go below zero);
and with a budget of zero a failure is returned as a terminal failure,
untouched, regardless of the classifier's verdict. -/
theorem retry_budget_invariant {S T : Type} (r : Retry) (shell : Shell)
    (step : S → Except Error T × S) (s : S) :
    (Retry.attempt r shell step s).2.1.remaining ≤ r.remaining ∧
      ((Retry.attempt r shell step s).1 = .ok none →
        r.remaining = (Retry.attempt r shell step s).2.1.remaining + 1) ∧
      (r.remaining = 0 → ∀ (e : Error) (s' : S), step s = (.error e, s') →
        Retry.attempt r shell step s = (.error e, r, shell, s')) := by
  refine ⟨?_, ?_, ?_⟩
  · unfold Retry.attempt
    rcases hs : step s with ⟨res, s1⟩
    rcases res with e | v
    · by_cases hc : (maybe_spurious e && decide (0 < r.remaining)) = true
      · simp only [hc, if_true]
        rcases hw : Shell.warn shell ("spurious network error (" ++
            toString r.remaining ++ " tries remaining): " ++
            (Error.root_cause e).describe) with ⟨sh1, w⟩
        rcases w with _ | werr <;> simp
      · simp only [Bool.not_eq_true] at hc
        simp [hc]
    · simp
  · intro hout
    rcases hA : Retry.attempt r shell step s with ⟨out, r', sh', s'⟩
    rw [hA] at hout
    simp only at hout
    subst hout
    have := attempt_retry_remaining r r' shell sh' step s s' hA
    simpa using this
  · intro hzero e s' hstep
    exact attempt_fatal r shell step s s' e hstep (Or.inr hzero)

theorem retry_budget_invariant_witness :
    ((⟨0⟩ : Retry).remaining = 0 ∧ stepErr e502 () = (.error e502, ())) ∧
      Retry.attempt (⟨0⟩ : Retry) shellOk (stepErr e502) () =
        (.error e502, ⟨0⟩, shellOk, ()) :=
  ⟨⟨rfl, rfl⟩,
    (retry_budget_invariant (⟨0⟩ : Retry) shellOk (stepErr e502) ()).2.2
      rfl e502 () rfl⟩

/-- C6: an error matching none of the four transient signatures (here: a
plain string error under any number of context layers) is classified not
spurious, and the loop returns it after a single invocation with the shell
untouched (no warning emitted), whatever the remaining budget. -/
theorem unclassified_error_returned_immediately {S T : Type} (msg : String)
    (ms : List String) (r : Retry) (shell : Shell)
    (step : S → Except Error T × S) (s s' : S)
    (h : step s = (.error (wrapContexts ms (.base (.other msg))), s')) :
    maybe_spurious (wrapContexts ms (.base (.other msg))) = false ∧
      with_retry_loop step shell s r =
        (.error (wrapContexts ms (.base (.other msg))), shell, s', 1) := by
  have hspur : maybe_spurious (wrapContexts ms (.base (.other msg))) = false := by
    rw [maybe_spurious_wrapContexts]
    rfl
  refine ⟨hspur, ?_⟩
  exact loop_step_err r r shell shell step s s' _
    (attempt_fatal r shell step s s' _ h (Or.inl hspur))

theorem unclassified_error_witness :
    stepErr eOtherPlain () = (.error (wrapContexts [] (.base (.other "some plain string error"))), ()) ∧
      (maybe_spurious (wrapContexts [] (.base (.other "some plain string error"))) = false ∧
        with_retry_loop (stepErr eOtherPlain) shellOk () (⟨3⟩ : Retry) =
          (.error (wrapContexts [] (.base (.other "some plain string error"))), shellOk, (), 1)) :=
  ⟨rfl, unclassified_error_returned_immediately "some plain string error" []
    (⟨3⟩ : Retry) shellOk (stepErr eOtherPlain) () () rfl⟩

/-- Fuel-indexed form of the return contract: with a healthy sink, the loop
result is exactly the outcome of the last invocation, unmodified, and the
final index equals the start index plus the number of invocations. -/
theorem loop_last_aux {T : Type} (f : Nat → Except Error T) :
    ∀ (fuel : Nat) (r : Retry), r.remaining ≤ fuel → ∀ (shell : Shell),
      shell.responses = [] → ∀ (i : Nat),
      (with_retry_loop (fun n => (f n, n + 1)) shell i r).2.2.1 =
          i + (with_retry_loop (fun n => (f n, n + 1)) shell i r).2.2.2 ∧
        (∀ v : T, (with_retry_loop (fun n => (f n, n + 1)) shell i r).1 = .ok v →
          f ((with_retry_loop (fun n => (f n, n + 1)) shell i r).2.2.1 - 1) = .ok v) ∧
        (∀ e : Error, (with_retry_loop (fun n => (f n, n + 1)) shell i r).1 = .error e →
          f ((with_retry_loop (fun n => (f n, n + 1)) shell i r).2.2.1 - 1) = .error e) := by
  intro fuel
  induction fuel with
  | zero =>
    intro r hr shell hresp i
    rcases hfi : f i with e | v
    · have hL := loop_step_err r r shell shell (fun n => (f n, n + 1)) i (i + 1) e
        (attempt_fatal r shell _ i (i + 1) e (by simp [hfi])
          (Or.inr (Nat.le_zero.mp hr)))
      rw [hL]
      refine ⟨rfl, fun v hv => by simp at hv, fun e' he' => ?_⟩
      simp only at he'
      simp only [Nat.add_sub_cancel]
      rw [hfi, ← he']
    · have hL := loop_step_ok r r shell shell (fun n => (f n, n + 1)) i (i + 1) v
        (attempt_ok r shell _ i (i + 1) v (by simp [hfi]))
      rw [hL]
      refine ⟨rfl, fun v' hv' => ?_, fun e' he' => by simp at he'⟩
      simp only at hv'
      simp only [Nat.add_sub_cancel]
      rw [hfi, ← hv']
  | succ n ih =>
    intro r hr shell hresp i
    rcases hfi : f i with e | v
    · by_cases hc : maybe_spurious e = true ∧ 0 < r.remaining
      · have hatt : Retry.attempt r shell (fun n => (f n, n + 1)) i =
            (.ok none, { remaining := r.remaining - 1 },
              { shell with emitted := shell.emitted ++
                  ["spurious network error (" ++ toString r.remaining ++
                    " tries remaining): " ++ (Error.root_cause e).describe] },
              i + 1) := by
          rw [attempt_spurious r shell _ i (i + 1) e (by simp [hfi]) hc.1 hc.2]
          simp [Shell.warn, hresp]
        have hL := loop_step_retry r { remaining := r.remaining - 1 } shell
          { shell with emitted := shell.emitted ++
              ["spurious network error (" ++ toString r.remaining ++
                " tries remaining): " ++ (Error.root_cause e).describe] }
          (fun n => (f n, n + 1)) i (i + 1) hatt
        rw [hL]
        have hih := ih { remaining := r.remaining - 1 } (by simp; omega)
          { shell with emitted := shell.emitted ++
              ["spurious network error (" ++ toString r.remaining ++
                " tries remaining): " ++ (Error.root_cause e).describe] }
          (by simp [hresp]) (i + 1)
        refine ⟨?_, fun v' hv' => ?_, fun e' he' => ?_⟩
        · simp only
          rw [hih.1]
          omega
        · exact hih.2.1 v' hv'
        · exact hih.2.2 e' he'
      · have hf : maybe_spurious e = false ∨ r.remaining = 0 := by
          rcases not_and_or.mp hc with h | h
          · exact Or.inl (Bool.not_eq_true _ ▸ (Bool.eq_false_iff.mpr (by simpa using h)))
          · exact Or.inr (by omega)
        have hL := loop_step_err r r shell shell (fun n => (f n, n + 1)) i (i + 1) e
          (attempt_fatal r shell _ i (i + 1) e (by simp [hfi]) hf)
        rw [hL]
        refine ⟨rfl, fun v' hv' => by simp at hv', fun e' he' => ?_⟩
        simp only at he'
        simp only [Nat.add_sub_cancel]
        rw [hfi, ← he']
    · have hL := loop_step_ok r r shell shell (fun n => (f n, n + 1)) i (i + 1) v
        (attempt_ok r shell _ i (i + 1) v (by simp [hfi]))
      rw [hL]
      refine ⟨rfl, fun v' hv' => ?_, fun e' he' => by simp at he'⟩
      simp only at hv'
      simp only [Nat.add_sub_cancel]
      rw [hfi, ← hv']

/-- C7: with a healthy warning sink, the loop returns the outcome of its last
invocation unmodified and unwrapped: a success value as produced, and on
terminal failure (fatal, or retryable with budget exhausted) the original
error value of the last attempt. -/
theorem terminal_result_unmodified {T : Type} (f : Nat → Except Error T)
    (r : Retry) (shell : Shell) (i : Nat) (hresp : shell.responses = []) :
    (with_retry_loop (fun n => (f n, n + 1)) shell i r).2.2.1 =
        i + (with_retry_loop (fun n => (f n, n + 1)) shell i r).2.2.2 ∧
      (∀ v : T, (with_retry_loop (fun n => (f n, n + 1)) shell i r).1 = .ok v →
        f ((with_retry_loop (fun n => (f n, n + 1)) shell i r).2.2.1 - 1) = .ok v) ∧
      (∀ e : Error, (with_retry_loop (fun n => (f n, n + 1)) shell i r).1 = .error e →
        f ((with_retry_loop (fun n => (f n, n + 1)) shell i r).2.2.1 - 1) = .error e) :=
  loop_last_aux f r.remaining r (Nat.le_refl _) shell hresp i

theorem terminal_result_unmodified_witness :
    shellOk.responses = [] ∧
      ((with_retry_loop (fun n => (fFatal n, n + 1)) shellOk 0 (⟨2⟩ : Retry)).2.2.1 =
          0 + (with_retry_loop (fun n => (fFatal n, n + 1)) shellOk 0 (⟨2⟩ : Retry)).2.2.2 ∧
        (∀ v : Unit, (with_retry_loop (fun n => (fFatal n, n + 1)) shellOk 0 (⟨2⟩ : Retry)).1 = .ok v →
          fFatal ((with_retry_loop (fun n => (fFatal n, n + 1)) shellOk 0 (⟨2⟩ : Retry)).2.2.1 - 1) = .ok v) ∧
        (∀ e : Error, (with_retry_loop (fun n => (fFatal n, n + 1)) shellOk 0 (⟨2⟩ : Retry)).1 = .error e →
          fFatal ((with_retry_loop (fun n => (fFatal n, n + 1)) shellOk 0 (⟨2⟩ : Retry)).2.2.1 - 1) = .error e)) :=
  ⟨rfl, terminal_result_unmodified fFatal (⟨2⟩ : Retry) shellOk 0 rfl⟩

/-- C8: a suppressed retry emits exactly one warning line, of the exact form
"spurious network error (N tries remaining): D" with N the budget before the
decrement and D the innermost root cause's description; a terminal failure
leaves the shell untouched, so no warning accompanies the propagated
error. -/
theorem retry_warning_format {S T : Type} (r : Retry) (shell : Shell)
    (step : S → Except Error T × S) (s s' : S) (e : Error) :
    (step s = (.error e, s') → maybe_spurious e = true → 0 < r.remaining →
      shell.responses = [] →
      Retry.attempt r shell step s =
        (.ok none, ⟨r.remaining - 1⟩,
          { shell with emitted := shell.emitted ++
              ["spurious network error (" ++ toString r.remaining ++
                " tries remaining): " ++ (Error.root_cause e).describe] }, s')) ∧
    (step s = (.error e, s') → maybe_spurious e = false ∨ r.remaining = 0 →
      Retry.attempt r shell step s = (.error e, r, shell, s')) := by
  constructor
  · intro hstep hspur hrem hresp
    rw [attempt_spurious r shell step s s' e hstep hspur hrem]
    simp [Shell.warn, hresp]
  · intro hstep hf
    exact attempt_fatal r shell step s s' e hstep hf

theorem retry_warning_format_witness :
    (stepErr e502 () = (.error e502, ()) ∧ maybe_spurious e502 = true ∧
        0 < (⟨2⟩ : Retry).remaining ∧ shellOk.responses = []) ∧
      Retry.attempt (⟨2⟩ : Retry) shellOk (stepErr e502) () =
        (.ok none, ⟨(⟨2⟩ : Retry).remaining - 1⟩,
          { shellOk with emitted := shellOk.emitted ++
              ["spurious network error (" ++ toString (⟨2⟩ : Retry).remaining ++
                " tries remaining): " ++ (Error.root_cause e502).describe] }, ()) :=
  ⟨⟨rfl, rfl, by decide, rfl⟩,
    (retry_warning_format (⟨2⟩ : Retry) shellOk (stepErr e502) () () e502).1
      rfl rfl (by decide) rfl⟩

/-- C9: a spurious failure with budget left whose warning emission fails ends
the whole session at once: the loop performs no further attempt and returns
the warning sink's error. -/
theorem warn_failure_aborts_session {S T : Type} (r : Retry) (shell : Shell)
    (step : S → Except Error T × S) (s s' : S) (e werr : Error)
    (rest : List (Option Error))
    (hstep : step s = (.error e, s')) (hspur : maybe_spurious e = true)
    (hrem : 0 < r.remaining)
    (hresp : shell.responses = some werr :: rest) :
    with_retry_loop step shell s r =
      (.error werr, { responses := rest, emitted := shell.emitted }, s', 1) := by
  have hatt : Retry.attempt r shell step s =
      (.error werr, r, { responses := rest, emitted := shell.emitted }, s') := by
    rw [attempt_spurious r shell step s s' e hstep hspur hrem]
    simp [Shell.warn, hresp]
  exact loop_step_err r r shell { responses := rest, emitted := shell.emitted }
    step s s' werr hatt

theorem warn_failure_aborts_session_witness :
    (stepErr e502 () = (.error e502, ()) ∧ maybe_spurious e502 = true ∧
        0 < (⟨2⟩ : Retry).remaining ∧
        shellBroken.responses = some werrBroken :: []) ∧
      with_retry_loop (stepErr e502) shellBroken () (⟨2⟩ : Retry) =
        (.error werrBroken,
          { responses := [], emitted := shellBroken.emitted }, (), 1) :=
  ⟨⟨rfl, rfl, by decide, rfl⟩,
    warn_failure_aborts_session (⟨2⟩ : Retry) shellBroken (stepErr e502) () ()
      e502 werrBroken [] rfl rfl (by decide) rfl⟩

/-- C10: when warning emission fails, the attempt returns the sink's error
with the budget counter untouched (the decrement only follows a successful
warning), and the operation's own error of that attempt is discarded: the
result carries only the sink's error. -/
theorem warn_failure_keeps_budget_discards_error {S T : Type} (r : Retry)
    (shell : Shell) (step : S → Except Error T × S) (s s' : S) (e werr : Error)
    (rest : List (Option Error))
    (hstep : step s = (.error e, s')) (hspur : maybe_spurious e = true)
    (hrem : 0 < r.remaining)
    (hresp : shell.responses = some werr :: rest) :
    Retry.attempt r shell step s =
      (.error werr, r, { responses := rest, emitted := shell.emitted }, s') := by
  rw [attempt_spurious r shell step s s' e hstep hspur hrem]
  simp [Shell.warn, hresp]

theorem warn_failure_frame_witness :
    (stepErr e502 () = (.error e502, ()) ∧ maybe_spurious e502 = true ∧
        0 < (⟨2⟩ : Retry).remaining ∧
        shellBroken.responses = some werrBroken :: []) ∧
      Retry.attempt (⟨2⟩ : Retry) shellBroken (stepErr e502) () =
        (.error werrBroken, ⟨2⟩,
          { responses := [], emitted := shellBroken.emitted }, ()) :=
  ⟨⟨rfl, rfl, by decide, rfl⟩,
    warn_failure_keeps_budget_discards_error (⟨2⟩ : Retry) shellBroken
      (stepErr e502) () () e502 werrBroken [] rfl rfl (by decide) rfl⟩
